import Mathlib

/-!
Verification of the Sfumato clustering core (src/src/clustering.py).

The Python module is shallowly embedded here:
* float coordinates and comparisons are modelled by rationals (`ℚ`) where the
  code only compares and copies them, and by reals (`ℝ`) where the code takes
  square roots (the distance functions);
* the list-of-tuples entries `(coordinate, other coordinate, barcode id)` are
  modelled by `Triple = ℚ × ℚ × ℚ` (Python tuples of numbers);
* Python exceptions are modelled by the `Except PyExc` monad: an operation
  that raises returns `Except.error`;
* `set` results are modelled by `Finset`.
-/

/-- Python runtime exceptions that the embedded functions can raise. -/
inductive PyExc where
  | valueError
  | typeError
  | unboundLocal
  | zeroDivision
deriving DecidableEq

/-- An element of `x_sorted` / `y_sorted`: `(coordinate, other coordinate, id)`.
The third slot is rational because the tests also store plain numbers there. -/
abbrev Triple := ℚ × ℚ × ℚ

/-- Default triple used by `List.getD`; all verified accesses are in bounds
(see the termination development for `bs_mechanism`), so the default is never
observable there.  Python would raise IndexError out of bounds. -/
def dtrip : Triple := (0, 0, 0)

/-- Python tuple indexing `t[index]` on a length-3 tuple of numbers.
Only indices 0 and 1 are ever passed by the code under verification. -/
def proj (t : Triple) (index : ℕ) : ℚ :=
  match index with
  | 0 => t.1
  | 1 => t.2.1
  | _ => t.2.2

/-!  Distance functions (clustering.py lines 9-49).  `eucledian_distance`
returns `np.sum((center - barcode)**2)`, i.e. the SQUARED euclidean distance,
despite its name.  numpy's elementwise subtraction is modelled by `zipWith`
on equal-length vectors (all claims quantify over equal lengths). -/

/-- clustering.py lines 9-22: `np.sum((center - barcode)**2)`. -/
noncomputable def eucledian_distance (center barcode : List ℝ) : ℝ :=
  (List.zipWith (fun a b => (a - b) ^ 2) center barcode).sum

/-- clustering.py lines 26-49:
`np.sqrt(sq_d_c + (sq_d_s/(S**2))*(m**2))` where
`sq_d_c = eucledian_distance(center_genes, barcode_genes)` and
`sq_d_s = eucledian_distance(center_pos, barcode_pos)`. -/
noncomputable def barcode_distance (center_pos center_genes barcode_pos
    barcode_genes : List ℝ) (S m : ℝ) : ℝ :=
  Real.sqrt (eucledian_distance center_genes barcode_genes +
    eucledian_distance center_pos barcode_pos / S ^ 2 * m ^ 2)

theorem eucledian_distance_nonneg (center barcode : List ℝ) :
    0 ≤ eucledian_distance center barcode := by
  unfold eucledian_distance
  induction center generalizing barcode with
  | nil => simp
  | cons a t ih =>
      cases barcode with
      | nil => simp
      | cons b u =>
          simp only [List.zipWith_cons_cons, List.sum_cons]
          have h1 := ih u
          have h2 : (0 : ℝ) ≤ (a - b) ^ 2 := sq_nonneg _
          linarith

theorem eucledian_distance_self (l : List ℝ) : eucledian_distance l l = 0 := by
  unfold eucledian_distance
  induction l with
  | nil => simp
  | cons a t ih =>
      simp only [List.zipWith_cons_cons, List.sum_cons]
      rw [ih]
      ring

/-!  BCMap (clustering.py lines 54-205). -/

/-- clustering.py lines 60-79, `BCMap.__init__` state.  The Python object
stores `S = np.sqrt(len(barcodes)/k)`; since every use in the claims is
algebraic we store the radicand `SSq = len(barcodes)/k` (so `S = √SSq`). -/
structure BCMapQ where
  x_sorted : List Triple
  y_sorted : List Triple
  SSq : ℚ
deriving DecidableEq

/-- clustering.py lines 60-79: build the two axis-sorted projections
`[(x, y, i)]` (Python's `sorted` is a stable ascending sort, modelled by
`mergeSort`) and the grid interval.  `len(barcodes)/k` raises
ZeroDivisionError in Python when `k = 0`; no other statement of the
constructor can raise. -/
def mkBCMap (barcodes : List (ℚ × ℚ)) (k : ℕ) : Except PyExc BCMapQ :=
  let xy := barcodes.enum.map (fun p => (p.2.1, p.2.2, (p.1 : ℚ)))
  if k = 0 then
    .error .zeroDivision
  else
    .ok { x_sorted := xy.mergeSort (fun a b => decide (a.1 ≤ b.1))
          y_sorted := xy.mergeSort (fun a b => decide (a.2.1 ≤ b.2.1))
          SSq := (barcodes.length : ℚ) / (k : ℚ) }

/-- clustering.py lines 82-108, `BCMap.bs_mechanism`:
`mid = int(np.ceil((i+j)/2))` is `(i + j + 1) / 2` in natural division;
then the four-way branch of the source.  The recursion measure is the
width of the search interval. -/
def bs_mechanism (sorted_values : List Triple) (index : ℕ) (start : ℚ)
    (i j : ℕ) : ℕ :=
  if start = proj (sorted_values.getD ((i + j + 1) / 2) dtrip) index then
    (i + j + 1) / 2
  else if (i + j + 1) / 2 = i ∨ (i + j + 1) / 2 = j then
    i
  else if start < proj (sorted_values.getD ((i + j + 1) / 2) dtrip) index then
    bs_mechanism sorted_values index start i ((i + j + 1) / 2)
  else
    bs_mechanism sorted_values index start ((i + j + 1) / 2) j
termination_by max i j - min i j
decreasing_by
 all_goals omega

/-- clustering.py lines 111-145, `BCMap.binary_search`: raises ValueError on
an empty list, returns index 0 when `start` is below the first key, `None`
(modelled by `Option.none`) when `start` is above the last key, and defers
to `bs_mechanism` on `[0, len - 1]` otherwise. -/
def binary_search (sorted_values : List Triple) (index : ℕ)
    (start : ℚ) : Except PyExc (Option ℕ) :=
  if sorted_values.length = 0 then
    .error .valueError
  else if start < proj (sorted_values.getD 0 dtrip) index then
    .ok (some 0)
  else if start > proj (sorted_values.getD (sorted_values.length - 1) dtrip) index then
    .ok none
  else
    .ok (some (bs_mechanism sorted_values index start 0 (sorted_values.length - 1)))

/-- clustering.py lines 148-184, `BCMap.find_bc_range`: binary-search the
start index, then scan forward collecting tuples into a set while the
indexed coordinate is `≤ stop` (the scan from `initial_index` with the
`initial_index < len` guard is exactly `takeWhile` after `drop`).  Note the
scan never re-checks the lower bound `start`. -/
def find_bc_range (sorted_values : List Triple) (index : ℕ)
    (start stop : ℚ) : Except PyExc (Finset Triple) :=
  match binary_search sorted_values index start with
  | .error e => .error e
  | .ok none => .ok ∅
  | .ok (some initial_index) =>
      .ok (((sorted_values.drop initial_index).takeWhile
              (fun e => decide (proj e index ≤ stop))).toFinset)

/-- clustering.py lines 187-205, `BCMap.find_bc_in_region` on a pair
center: line 199 `x_c, y_c = center` unpacks the two components, then the
source executes
`self.find_bc_range(self.x_sorted, x_c - 2/self.S, x_c + 2/self.S)`,
passing only three arguments to the four-parameter method `find_bc_range`
(`sorted_values`, `index`, `start`, `stop`): the call itself raises
TypeError (missing required positional argument) before any search runs,
for every map and every pair center. -/
def find_bc_in_region (_bc_map : BCMapQ) (_center : ℚ × ℚ) :
    Except PyExc (Finset Triple) :=
  .error .typeError

/-- clustering.py lines 187-205 as invoked from `find_new_clusters`, where
the argument is the whole center sequence (position followed by the
feature centroid).  Line 199 `x_c, y_c = center` unpacks that sequence:
when it does not have exactly two components Python raises ValueError
("too many/not enough values to unpack") right there; when it has exactly
two, the unpack succeeds and the under-supplied `find_bc_range` call on
line 200 raises TypeError (see `find_bc_in_region`). -/
def find_bc_in_region_seq (bc_map : BCMapQ) (center : List ℚ) :
    Except PyExc (Finset Triple) :=
  if center.length = 2 then
    find_bc_in_region bc_map (center.getD 0 0, center.getD 1 0)
  else
    .error .valueError

/-- The window bounds that clustering.py lines 200-203 write down textually:
`x_c - 2/self.S` and `x_c + 2/self.S` (a half-window of `2/S`, where the
docstring and the spec require `2*S`). -/
def region_window_low (x_c S : ℚ) : ℚ := x_c - 2 / S

/-- Upper window bound written at clustering.py line 201: `x_c + 2/self.S`. -/
def region_window_high (x_c S : ℚ) : ℚ := x_c + 2 / S

/-!  SLIC (clustering.py lines 222-311). -/

/-- clustering.py lines 222-259, `find_new_clusters`: iterates over the
centers; the very first statement executed for a center is
`bc_map.find_bc_in_region(center)` with the full center sequence, which
raises unconditionally (ValueError from the line-199 unpack when the
center does not have exactly two components, TypeError from the line-200
under-supplied call when it does — see `find_bc_in_region_seq`), so the
pass fails as soon as there is at least one center.  The remainder of the
loop body — including the center update `new_centers[c_i] /= n`, which
divides the accumulator by the fold count with no guard for `n = 0` — is
unreachable. -/
def find_new_clusters (_cm : List (List ℚ)) (bc_map : BCMapQ)
    (c_k : List (List ℚ)) (_labels : List ℤ) (_distances : List ℚ)
    (_m : ℚ) : Except PyExc (List (List ℚ)) :=
  match c_k with
  | [] => .ok []
  | center :: _ =>
      match find_bc_in_region_seq bc_map center with
      | .error e => .error e
      | .ok _ => .ok []

/-- clustering.py line 300 (dead code, kept for reference): the label array
`[-1 for _ in np.arange(cm.shape[1])]` — note it is sized by the number of
columns of `cm` (genes), not by the number of barcodes. -/
def slic_labels_init (cm : List (List ℚ)) : List ℤ :=
  List.replicate (cm.headD []).length (-1)

/-- clustering.py line 303 (dead code): `residual_error = threshold + 1`. -/
def slic_initial_residual (threshold : ℚ) : ℚ := threshold + 1

/-- clustering.py line 305 (dead code): the loop header
`while residual_error <= threshold:` — the loop body runs exactly while
this test is true. -/
def slic_loop_test (residual_error threshold : ℚ) : Bool :=
  decide (residual_error ≤ threshold)

/-- clustering.py lines 272-311, `slic`: after `BCMap(barcodes, k)` is
built (which raises ZeroDivisionError when `k = 0`), line 298 evaluates the
bare name `cluster_centers`.  That name is a local variable of `slic`
(it is assigned at line 309) that has not been bound yet, so Python raises
UnboundLocalError; nothing after line 298 ever executes. -/
def slic (barcodes : List (ℚ × ℚ)) (_cm : List (List ℚ)) (k : ℕ)
    (_threshold _m : ℚ) : Except PyExc (List ℤ) :=
  match mkBCMap barcodes k with
  | .error e => .error e
  | .ok _bc_map => .error .unboundLocal

/-- The example list used throughout the spec and the repository's tests:
the x-sorted projection `[(2,0,0), (4,0,0), (6,0,0)]`. -/
def xSortedExample : List Triple := [(2, 0, 0), (4, 0, 0), (6, 0, 0)]

/-!  Helper lemmas. -/

/-- The result of `bs_mechanism` stays inside the search interval `[i, j]`;
proved by induction on the interval width, following the recursion. -/
theorem bs_mechanism_mem_interval (sorted_values : List Triple) (index : ℕ)
    (start : ℚ) :
    ∀ w i j, j - i ≤ w → i ≤ j →
      i ≤ bs_mechanism sorted_values index start i j ∧
        bs_mechanism sorted_values index start i j ≤ j := by
  intro w
  induction w with
  | zero =>
      intro i j hw hij
      have hji : j = i := by omega
      subst hji
      rw [bs_mechanism.eq_def]
      split_ifs with h1 h2
      · omega
      · omega
      · omega
      · omega
  | succ w ih =>
      intro i j hw hij
      rw [bs_mechanism.eq_def]
      split_ifs with h1 h2 h3
      · omega
      · omega
      · have hmid : i < (i + j + 1) / 2 ∧ (i + j + 1) / 2 < j := by omega
        obtain ⟨a, b⟩ := ih i ((i + j + 1) / 2) (by omega) (by omega)
        exact ⟨a, by omega⟩
      · have hmid : i < (i + j + 1) / 2 ∧ (i + j + 1) / 2 < j := by omega
        obtain ⟨a, b⟩ := ih ((i + j + 1) / 2) j (by omega) (by omega)
        exact ⟨by omega, b⟩

/-- Any position of a nonempty list read through `getD` at an in-bounds
index is a member of the list. -/
theorem getD_mem_of_lt (l : List Triple) (n : ℕ) (h : n < l.length) :
    l.getD n dtrip ∈ l := by
  rw [List.getD_eq_getElem l dtrip h]
  exact List.getElem_mem h

/-- Claim C10.  For every sorted list and all bounds `0 ≤ i ≤ j < length`,
`bs_mechanism` terminates: the upper midpoint `⌈(i+j)/2⌉` always lies in
`[i, j]` (so, given `j < length`, every list access is in bounds), it lies
strictly between `i` and `j` whenever `j - i ≥ 2` (so each recursive call
strictly decreases the interval width), the function returns without
recursing when the midpoint collapses onto either bound, and the total
function value exists and itself lies in `[i, j]`. -/
theorem bs_mechanism_inbounds_and_progress (sorted_values : List Triple)
    (index : ℕ) (start : ℚ) (i j : ℕ) (hij : i ≤ j)
    (hj : j < sorted_values.length) :
    (i ≤ (i + j + 1) / 2 ∧ (i + j + 1) / 2 ≤ j ∧
      (i + j + 1) / 2 < sorted_values.length) ∧
    (2 ≤ j - i → i < (i + j + 1) / 2 ∧ (i + j + 1) / 2 > i ∧
      (i + j + 1) / 2 < j) ∧
    ((i + j + 1) / 2 = i ∨ (i + j + 1) / 2 = j →
      bs_mechanism sorted_values index start i j = (i + j + 1) / 2 ∨
        bs_mechanism sorted_values index start i j = i) ∧
    (i ≤ bs_mechanism sorted_values index start i j ∧
      bs_mechanism sorted_values index start i j ≤ j) := by
  refine ⟨by omega, by omega, ?_, ?_⟩
  · intro hcol
    rw [bs_mechanism.eq_def]
    by_cases h1 : start =
        proj (sorted_values.getD ((i + j + 1) / 2) dtrip) index
    · rw [if_pos h1]
      exact Or.inl rfl
    · rw [if_neg h1, if_pos hcol]
      exact Or.inr rfl
  · exact bs_mechanism_mem_interval sorted_values index start (j - i) i j
      (by omega) hij

/-- Witness for C10 at the concrete list `[(2,0,0), (4,0,0), (6,0,0)]`
with `i = 0`, `j = 2`. -/
theorem bs_mechanism_inbounds_applied :
    0 ≤ bs_mechanism xSortedExample 0 3 0 2 ∧
      bs_mechanism xSortedExample 0 3 0 2 ≤ 2 :=
  (bs_mechanism_inbounds_and_progress xSortedExample 0 3 0 2
    (by decide) (by decide)).2.2.2

/-- Claim C7.  On every nonempty list, `binary_search` returns index 0 when
the key is strictly below every stored value, returns `none` ("absent")
when the key strictly exceeds every stored value, and whenever it returns
`none` the enclosing `find_bc_range` yields the empty set. -/
theorem binary_search_extreme_keys (sorted_values : List Triple) (index : ℕ)
    (start stop : ℚ) (hne : sorted_values ≠ []) :
    ((∀ e ∈ sorted_values, start < proj e index) →
      binary_search sorted_values index start = .ok (some 0)) ∧
    ((∀ e ∈ sorted_values, proj e index < start) →
      binary_search sorted_values index start = .ok none) ∧
    (binary_search sorted_values index start = .ok none →
      find_bc_range sorted_values index start stop = .ok ∅) := by
  have hlen : 0 < sorted_values.length := List.length_pos.mpr hne
  have h0 : sorted_values.getD 0 dtrip ∈ sorted_values :=
    getD_mem_of_lt sorted_values 0 hlen
  have hlast : sorted_values.getD (sorted_values.length - 1) dtrip ∈
      sorted_values :=
    getD_mem_of_lt sorted_values (sorted_values.length - 1) (by omega)
  refine ⟨?_, ?_, ?_⟩
  · intro h
    unfold binary_search
    rw [if_neg (by omega), if_pos (h _ h0)]
  · intro h
    unfold binary_search
    rw [if_neg (by omega), if_neg (by exact not_lt.mpr (h _ h0).le),
      if_pos (h _ hlast)]
  · intro h
    unfold find_bc_range
    rw [h]

/-- Witness for C7: on the singleton `[(10, 0, 0)]` a key below everything
gives index 0, a key above everything gives `none`, and the range query at
such a key is empty. -/
theorem binary_search_extreme_keys_applied :
    binary_search [((10 : ℚ), (0 : ℚ), (0 : ℚ))] 0 2 = .ok (some 0) ∧
      binary_search [((10 : ℚ), (0 : ℚ), (0 : ℚ))] 0 15 = .ok none ∧
      find_bc_range [((10 : ℚ), (0 : ℚ), (0 : ℚ))] 0 15 20 = .ok ∅ := by
  have hlo := (binary_search_extreme_keys [(10, 0, 0)] 0 2 20
    (by decide)).1 (by decide)
  have hhi := (binary_search_extreme_keys [(10, 0, 0)] 0 15 20
    (by decide)).2.1 (by decide)
  have hrange := (binary_search_extreme_keys [(10, 0, 0)] 0 15 20
    (by decide)).2.2 hhi
  exact ⟨hlo, hhi, hrange⟩

/-- Concrete run of `bs_mechanism` on the example list with key 3:
`[0,2] → mid 1 (value 4 > 3) → [0,1] → mid 1 collapses → 0`. -/
theorem bs_mechanism_example_eval : bs_mechanism xSortedExample 0 3 0 2 = 0 := by
  rw [bs_mechanism.eq_def]
  norm_num [proj, xSortedExample, dtrip]
  rw [bs_mechanism.eq_def]
  norm_num [proj, xSortedExample, dtrip]

/-- Concrete run of `binary_search` on the example list with key 3. -/
theorem binary_search_example_eval :
    binary_search xSortedExample 0 3 = .ok (some 0) := by
  unfold binary_search
  rw [if_neg (by norm_num [xSortedExample]),
    if_neg (by norm_num [xSortedExample, proj, dtrip]),
    if_neg (by norm_num [xSortedExample, proj, dtrip])]
  rw [show xSortedExample.length - 1 = 2 by norm_num [xSortedExample]]
  rw [bs_mechanism_example_eval]

/-- Concrete run of `find_bc_range` on the example list with bounds
`[3, 5]`: the scan starts at index 0 (coordinate 2, strictly below the
lower bound) and collects `(2,0,0)` and `(4,0,0)`. -/
theorem find_bc_range_example_eval :
    find_bc_range xSortedExample 0 3 5 =
      Except.ok {(2, 0, 0), (4, 0, 0)} := by
  unfold find_bc_range
  rw [binary_search_example_eval]
  simp only [Except.ok.injEq]
  decide

/-- Counterexample to C1 as stated: on the x-sorted list
`[(2,0,0), (4,0,0), (6,0,0)]` with `low = 3`, `high = 5`, `find_bc_range`
does not return `{(4,0,0)}` — it also includes `(2,0,0)`, whose coordinate
2 is strictly below the lower bound 3 (this is also what the repository's
own test suite expects). -/
theorem find_bc_range_narrow_window_ne_spec :
    find_bc_range xSortedExample 0 3 5 ≠
      Except.ok ({((4 : ℚ), (0 : ℚ), (0 : ℚ))} : Finset Triple) := by
  rw [find_bc_range_example_eval]
  simp only [ne_eq, Except.ok.injEq]
  decide

/-- Claim C1 (amended).  `find_bc_range` never returns an entry whose
coordinate on the queried axis is strictly above `high`, but it may return
entries strictly below `low` (the forward scan starts at the index located
by binary search, whose coordinate can be below `low`, and never re-checks
the lower bound); on the x-sorted list `[(2,0,0), (4,0,0), (6,0,0)]` with
`low = 3` and `high = 5` it returns exactly `{(2,0,0), (4,0,0)}`. -/
theorem find_bc_range_upper_bound_and_example :
    (∀ (sorted_values : List Triple) (index : ℕ) (start stop : ℚ)
        (r : Finset Triple),
      find_bc_range sorted_values index start stop = .ok r →
      ∀ e ∈ r, proj e index ≤ stop) ∧
    find_bc_range xSortedExample 0 3 5 =
      Except.ok {(2, 0, 0), (4, 0, 0)} := by
  refine ⟨?_, find_bc_range_example_eval⟩
  intro sorted_values index start stop r h e he
  unfold find_bc_range at h
  cases hbs : binary_search sorted_values index start with
  | error err =>
      rw [hbs] at h
      exact absurd h (by simp)
  | ok o =>
      rw [hbs] at h
      cases o with
      | none =>
          simp only [Except.ok.injEq] at h
          rw [← h] at he
          exact absurd he (by simp)
      | some initial_index =>
          simp only [Except.ok.injEq] at h
          rw [← h] at he
          rw [List.mem_toFinset] at he
          have hp := List.mem_takeWhile_imp he
          simpa using hp

/-- Witness for C1: the amended upper bound applied at the example query,
on the member `(4,0,0)` of its result. -/
theorem find_bc_range_upper_bound_applied :
    proj ((4 : ℚ), (0 : ℚ), (0 : ℚ)) 0 ≤ 5 :=
  find_bc_range_upper_bound_and_example.1 xSortedExample 0 3 5
    {(2, 0, 0), (4, 0, 0)} find_bc_range_upper_bound_and_example.2
    (4, 0, 0) (by decide)

/-- Counterexample to C6 as stated: constructing the map from an empty
position sequence does not fail — it succeeds and produces an index object
with empty projections (exactly what the repository's test
`test_map_init_X_EMPTY` asserts). -/
theorem mkBCMap_empty_succeeds :
    mkBCMap ([] : List (ℚ × ℚ)) 10 = Except.ok ⟨[], [], 0⟩ := by
  simp [mkBCMap, List.mergeSort_nil]

/-- Claim C6 (amended).  Constructing the spatial index from an empty
position sequence succeeds for every nonzero `k`, producing an index whose
two sorted projections are empty (and whose grid interval is 0); the
ValueError ("no barcodes") is raised only later, when `binary_search` is
invoked on the empty index. -/
theorem mkBCMap_empty_index_and_deferred_error (k : ℕ) (hk : k ≠ 0) :
    mkBCMap ([] : List (ℚ × ℚ)) k = Except.ok ⟨[], [], 0⟩ ∧
      binary_search [] 1 23 = Except.error PyExc.valueError := by
  constructor
  · simp [mkBCMap, hk, List.mergeSort_nil]
  · rfl

/-- Witness for C6 at `k = 10` (the value the repository's tests use). -/
theorem mkBCMap_empty_index_applied :
    mkBCMap ([] : List (ℚ × ℚ)) 10 = Except.ok ⟨[], [], 0⟩ ∧
      binary_search [] 1 23 = Except.error PyExc.valueError :=
  mkBCMap_empty_index_and_deferred_error 10 (by decide)

/-- Claim C2 (evaluating the code at the failing input).  The region query
raises TypeError for every constructed index and every center, because the
source passes only three of the four required arguments of
`find_bc_range`; and the window arithmetic the source writes uses a
half-window of `2/S`, not `2·S`: at the grid interval `S = 2` (for example
`n = 4`, `k = 1`, `S = √(4/1) = 2`) the upper bound from center 0 is
`0 + 2/2 = 1`, while the spec's `2·S` half-window would give `0 + 4`. -/
theorem find_bc_in_region_type_error (bc_map : BCMapQ) (center : ℚ × ℚ) :
    find_bc_in_region bc_map center = Except.error PyExc.typeError ∧
      region_window_high 0 2 = 1 ∧
      region_window_high 0 2 ≠ 0 + 2 * 2 := by
  refine ⟨rfl, by norm_num [region_window_high], ?_⟩
  norm_num [region_window_high]

/-- Claim C3 (evaluating the code at the failing input).  On the smallest
well-formed input (one barcode at the origin, a 1×1 count matrix, `k = 1`)
`slic` raises UnboundLocalError instead of returning labels; and the label
array that its dead initialization would build holds only the unassigned
sentinel `-1`. -/
theorem slic_no_valid_labels_at_unit_input :
    slic [((0 : ℚ), (0 : ℚ))] [[1]] 1 0 1 =
        Except.error PyExc.unboundLocal ∧
      slic_labels_init [[1]] = [-1] ∧
      ∀ x ∈ slic_labels_init [[1]], x = -1 := by
  refine ⟨?_, rfl, ?_⟩
  · simp [slic, mkBCMap]
  · intro x hx
    simpa [slic_labels_init] using hx

/-- Claim C4 (evaluating the code at the failing input).  For every
nonempty center list, `find_new_clusters` raises on its first center and
never reaches any retain-previous-center logic: the unpack
`x_c, y_c = center` (line 199) raises ValueError when the center sequence
— position followed by feature centroid — does not have exactly two
components, and a bare two-component center instead hits the TypeError of
the under-supplied `find_bc_range` call (line 200); the unguarded center
update `new_centers[c_i] /= n` (line 257) is never even reached. -/
theorem find_new_clusters_always_raises (cm : List (List ℚ))
    (bc_map : BCMapQ) (c_k : List (List ℚ)) (labels : List ℤ)
    (distances : List ℚ) (m : ℚ) (center : List ℚ) (rest : List (List ℚ))
    (hck : c_k = center :: rest) :
    (center.length ≠ 2 →
      find_new_clusters cm bc_map c_k labels distances m =
        Except.error PyExc.valueError) ∧
    (center.length = 2 →
      find_new_clusters cm bc_map c_k labels distances m =
        Except.error PyExc.typeError) := by
  subst hck
  constructor
  · intro h
    simp [find_new_clusters, find_bc_in_region_seq, h]
  · intro h
    simp [find_new_clusters, find_bc_in_region_seq, find_bc_in_region, h]

/-- Witness for C4 at the recorded failing input: a single three-component
center (position `(0,0)` plus a one-gene centroid) over a single barcode —
the unpack of the length-3 center raises ValueError. -/
theorem find_new_clusters_always_raises_applied :
    find_new_clusters [[1]] ⟨[(0, 0, 0)], [(0, 0, 0)], 1⟩ [[0, 0, 0]]
        [-1] [0] 1 = Except.error PyExc.valueError :=
  (find_new_clusters_always_raises [[1]] ⟨[(0, 0, 0)], [(0, 0, 0)], 1⟩
    [[0, 0, 0]] [-1] [0] 1 [0, 0, 0] [] rfl).1 (by decide)

/-- Claim C5 (evaluating the code).  The residual-error loop of `slic`
never executes: the residual is initialized to `threshold + 1` and the
loop header reads `while residual_error <= threshold`, which is false on
entry for every threshold, so zero refinement passes run. -/
theorem slic_loop_body_never_runs (threshold : ℚ) :
    slic_loop_test (slic_initial_residual threshold) threshold = false := by
  simp only [slic_loop_test, slic_initial_residual, decide_eq_false_iff_not,
    not_le]
  linarith

/-- Counterexample to C9 as stated: at `k = 0` the division
`len(barcodes)/k` inside the `BCMap` constructor raises ZeroDivisionError
on line 79, before the bare `cluster_centers` on line 298 is ever reached,
so this input does not fail with the unbound-name error. -/
theorem slic_zero_k_not_unbound :
    slic [((0 : ℚ), (0 : ℚ))] [[1]] 0 0 1 =
        Except.error PyExc.zeroDivision ∧
      PyExc.zeroDivision ≠ PyExc.unboundLocal := by
  exact ⟨by simp [slic, mkBCMap], by decide⟩

/-- Claim C9 (amended).  For every input, `slic` never returns a label
vector; for every input with `k ≠ 0` it fails with the unbound-name error
on `cluster_centers` before any refinement pass runs (at `k = 0` it fails
even earlier, with ZeroDivisionError in the index constructor). -/
theorem slic_always_fails (barcodes : List (ℚ × ℚ)) (cm : List (List ℚ))
    (k : ℕ) (threshold m : ℚ) :
    (∀ labels : List ℤ, slic barcodes cm k threshold m ≠ Except.ok labels) ∧
      (k ≠ 0 → slic barcodes cm k threshold m =
        Except.error PyExc.unboundLocal) := by
  constructor
  · intro labels h
    unfold slic at h
    cases hmk : mkBCMap barcodes k with
    | error e => rw [hmk] at h; exact absurd h (by simp)
    | ok bm => rw [hmk] at h; exact absurd h (by simp)
  · intro hk
    unfold slic
    cases hmk : mkBCMap barcodes k with
    | error e =>
        exact absurd hmk (by simp [mkBCMap, hk])
    | ok bm => rfl

/-- Witness for C9 at a concrete input with `k = 3`. -/
theorem slic_always_fails_applied :
    slic [((0 : ℚ), (0 : ℚ))] [[1]] 3 0 1 =
      Except.error PyExc.unboundLocal :=
  (slic_always_fails [(0, 0)] [[1]] 3 0 1).2 (by decide)

/-- Concrete squared spatial distance used by the C8 witness. -/
theorem eucledian_distance_unit_example :
    eucledian_distance [0, 0] [1, 0] = 1 := by
  simp [eucledian_distance]

/-- Claim C8.  For equal-length feature vectors, positions, `S > 0` and
`m ∈ [1, 40]`, `barcode_distance` equals
`√(feature squared distance + (spatial squared distance / S²) · m²)`;
it collapses to the pure feature-space euclidean distance when the
positions coincide, it is strictly increasing in `m` whenever the spatial
distance is nonzero, and it is 0 when positions and features are both
identical. -/
theorem barcode_distance_formula_and_monotone
    (center_pos center_genes barcode_pos barcode_genes : List ℝ) (S m : ℝ)
    (hlenp : center_pos.length = barcode_pos.length)
    (hleng : center_genes.length = barcode_genes.length)
    (hS : 0 < S) (hm1 : 1 ≤ m) (_hm40 : m ≤ 40) :
    barcode_distance center_pos center_genes barcode_pos barcode_genes S m =
        Real.sqrt (eucledian_distance center_genes barcode_genes +
          eucledian_distance center_pos barcode_pos / S ^ 2 * m ^ 2) ∧
      (barcode_pos = center_pos →
        barcode_distance center_pos center_genes barcode_pos barcode_genes
            S m =
          Real.sqrt (eucledian_distance center_genes barcode_genes)) ∧
      (∀ m2, m < m2 → m2 ≤ 40 →
        0 < eucledian_distance center_pos barcode_pos →
        barcode_distance center_pos center_genes barcode_pos barcode_genes
            S m <
          barcode_distance center_pos center_genes barcode_pos barcode_genes
            S m2) ∧
      (barcode_pos = center_pos → barcode_genes = center_genes →
        barcode_distance center_pos center_genes barcode_pos barcode_genes
          S m = 0) := by
  refine ⟨rfl, ?_, ?_, ?_⟩
  · intro hpos
    subst hpos
    unfold barcode_distance
    rw [eucledian_distance_self]
    norm_num
  · intro m2 hm2 hm240 hds
    unfold barcode_distance
    have hS2 : (0 : ℝ) < S ^ 2 := by positivity
    have hq : 0 < eucledian_distance center_pos barcode_pos / S ^ 2 :=
      div_pos hds hS2
    have hdc := eucledian_distance_nonneg center_genes barcode_genes
    apply Real.sqrt_lt_sqrt
    · nlinarith
    · have hmm : m ^ 2 < m2 ^ 2 := by nlinarith
      nlinarith
  · intro hpos hgen
    subst hpos
    subst hgen
    unfold barcode_distance
    rw [eucledian_distance_self, eucledian_distance_self]
    simp

/-- Witness for C8: positions `(0,0)` vs `(1,0)`, a shared feature vector,
`S = 1`, compactness weights 1 and 2 — the combined distance strictly
grows with the weight. -/
theorem barcode_distance_formula_applied :
    barcode_distance [0, 0] [0] [1, 0] [0] 1 1 <
      barcode_distance [0, 0] [0] [1, 0] [0] 1 2 :=
  (barcode_distance_formula_and_monotone [0, 0] [0] [1, 0] [0] 1 1
      rfl rfl one_pos le_rfl (by norm_num)).2.2.1 2 (by norm_num)
    (by norm_num) (by rw [eucledian_distance_unit_example]; norm_num)
